import Mathlib

/-!
Verification of the Project Aggregate Persistence & Consistency Subsystem.

Shallow embedding of:
- `backend/app/domain/entities/project.py` (domain entity and state machine)
- `backend/app/infrastructure/repositories/sqlalchemy_project_repository.py`
  (repository: save, get_by_id, get_all, get_with_cursor, delete)
- `backend/app/core/unit_of_work.py` (SqlAlchemyUnitOfWork guards and session lifecycle)
- `backend/app/services/project_service.py` (ProjectService.list_projects)

Dates are embedded as `Int` (day numbers); `date.today()` becomes an explicit
`today` parameter.  Python exceptions become `Except` results.  The SQLAlchemy
session is embedded as a pair of database states (`committed`, `pending`):
`session.execute`/`add` mutate `pending`, `commit` copies `pending` into
`committed`, `rollback` copies `committed` back into `pending`.
-/

/-- Status enum from `project.py` (`ProjectStatus`, a str-valued enum; the ORM mirror
in `models/project.py` carries the same five values and converts by `.value`). -/
inductive ProjectStatus
  | planejamento
  | emAndamento
  | pausado
  | concluido
  | cancelado
deriving DecidableEq, Repr

/-- Domain exceptions from `project.py`: `InvalidStateTransitionError` and
`BusinessRuleViolationError`. -/
inductive DomainError
  | invalidStateTransition
  | businessRuleViolation
deriving DecidableEq, Repr

/-- Domain entity `Project` from `project.py` (dataclass fields, same defaults;
`start_date`'s `date.today()` default is embedded as day 0). -/
structure Project where
  id : Option Nat := none
  name : String := ""
  description : Option String := none
  startDate : Int := 0
  endDatePlanned : Option Int := none
  endDateActual : Option Int := none
  status : ProjectStatus := ProjectStatus.planejamento
  clientId : Nat := 0
  responsibleUserId : Nat := 0
  observations : Option String := none
  estimatedValue : Option String := none
  deletedAt : Option Int := none
deriving DecidableEq, Repr

/-- Date invariant test from `Project._validate_dates` (project.py:86-95):
the rule fires when `end_date_planned` is truthy (Python `date` objects are always
truthy, so this is a presence test) and earlier than `start_date`. -/
def datesValid (p : Project) : Bool :=
  match p.endDatePlanned with
  | none => true
  | some e => !(e < p.startDate)

/-- Construction path: the dataclass assigns the fields, then `__post_init__`
(project.py:82-84) runs `_validate_dates`, raising `BusinessRuleViolationError`
on violation. -/
def Project.validated (p : Project) : Except DomainError Project :=
  if datesValid p then Except.ok p else Except.error DomainError.businessRuleViolation

/-- State transition `Project.start` (project.py:101-119): legal from
PLANEJAMENTO or PAUSADO, else `InvalidStateTransitionError`. -/
def Project.start (p : Project) : Except DomainError Project :=
  if p.status = ProjectStatus.planejamento ∨ p.status = ProjectStatus.pausado then
    Except.ok { p with status := ProjectStatus.emAndamento }
  else
    Except.error DomainError.invalidStateTransition

/-- State transition `Project.pause` (project.py:121-132): legal only from
EM_ANDAMENTO. -/
def Project.pause (p : Project) : Except DomainError Project :=
  if p.status = ProjectStatus.emAndamento then
    Except.ok { p with status := ProjectStatus.pausado }
  else
    Except.error DomainError.invalidStateTransition

/-- State transition `Project.complete` (project.py:134-152): legal only from
EM_ANDAMENTO; sets `end_date_actual = completion_date or date.today()` (a `date`
is always truthy, so `or` acts as a None-default). -/
def Project.complete (p : Project) (today : Int) (completionDate : Option Int) :
    Except DomainError Project :=
  if p.status = ProjectStatus.emAndamento then
    Except.ok { p with
      status := ProjectStatus.concluido
      endDateActual := some (completionDate.getD today) }
  else
    Except.error DomainError.invalidStateTransition

/-- Python truthiness of an `Optional[str]`: `None` and `""` are falsy. -/
def optStrTruthy (s : Option String) : Bool :=
  match s with
  | none => false
  | some v => !(v = "")

/-- State transition `Project.cancel` (project.py:154-171): illegal only from
CONCLUIDO; sets CANCELADO; `if reason:` (truthiness) prepends
`f"[CANCELADO] {reason}\n{self.observations or ''}"` into `observations`. -/
def Project.cancel (p : Project) (reason : Option String) : Except DomainError Project :=
  if p.status = ProjectStatus.concluido then
    Except.error DomainError.invalidStateTransition
  else
    let p1 := { p with status := ProjectStatus.cancelado }
    if optStrTruthy reason then
      Except.ok { p1 with
        observations := some ("[CANCELADO] " ++ reason.getD "" ++ "\n" ++ p.observations.getD "") }
    else
      Except.ok p1

/-- Derived property `Project.is_modifiable` (project.py:192-195). -/
def Project.isModifiable (p : Project) : Bool :=
  !(p.status = ProjectStatus.concluido ∨ p.status = ProjectStatus.cancelado)

/-- One update line of `update_details`: `if name is not None: self.name = name`. -/
def updName (v : Option String) (p : Project) : Project :=
  match v with
  | some n => { p with name := n }
  | none => p

/-- One update line of `update_details`: `if description is not None: ...`. -/
def updDescription (v : Option String) (p : Project) : Project :=
  match v with
  | some d => { p with description := some d }
  | none => p

/-- One update line of `update_details`: `if end_date_planned is not None: ...`. -/
def updEndDatePlanned (v : Option Int) (p : Project) : Project :=
  match v with
  | some e => { p with endDatePlanned := some e }
  | none => p

/-- One update line of `update_details`: `if observations is not None: ...`. -/
def updObservations (v : Option String) (p : Project) : Project :=
  match v with
  | some o => { p with observations := some o }
  | none => p

/-- One update line of `update_details`: `if estimated_value is not None: ...`. -/
def updEstimatedValue (v : Option String) (p : Project) : Project :=
  match v with
  | some e => { p with estimatedValue := some e }
  | none => p

/-- Partial update `Project.update_details` (project.py:225-255): rejected with
`BusinessRuleViolationError` unless modifiable; each argument supplied
(`is not None`, a presence test) overwrites its field in order
name, description, end_date_planned (re-validating the date rule immediately,
before the remaining fields are applied), observations, estimated_value. -/
def Project.updateDetails (p : Project) (name description : Option String)
    (endDatePlanned : Option Int) (observations estimatedValue : Option String) :
    Except DomainError Project :=
  if p.isModifiable then
    let p3 := updEndDatePlanned endDatePlanned (updDescription description (updName name p))
    if endDatePlanned.isSome ∧ ¬ datesValid p3 then
      Except.error DomainError.businessRuleViolation
    else
      Except.ok (updEstimatedValue estimatedValue (updObservations observations p3))
  else
    Except.error DomainError.businessRuleViolation

deriving instance DecidableEq for Except

/-- Helper: success test for an `Except` result. -/
def exceptOk {ε α : Type} (e : Except ε α) : Bool :=
  match e with
  | Except.ok _ => true
  | Except.error _ => false

@[simp] lemma updName_startDate (v : Option String) (p : Project) :
    (updName v p).startDate = p.startDate := by cases v <;> rfl

@[simp] lemma updName_endDatePlanned (v : Option String) (p : Project) :
    (updName v p).endDatePlanned = p.endDatePlanned := by cases v <;> rfl

@[simp] lemma updName_endDateActual (v : Option String) (p : Project) :
    (updName v p).endDateActual = p.endDateActual := by cases v <;> rfl

@[simp] lemma updDescription_startDate (v : Option String) (p : Project) :
    (updDescription v p).startDate = p.startDate := by cases v <;> rfl

@[simp] lemma updDescription_endDatePlanned (v : Option String) (p : Project) :
    (updDescription v p).endDatePlanned = p.endDatePlanned := by cases v <;> rfl

@[simp] lemma updDescription_endDateActual (v : Option String) (p : Project) :
    (updDescription v p).endDateActual = p.endDateActual := by cases v <;> rfl

@[simp] lemma updEndDatePlanned_startDate (v : Option Int) (p : Project) :
    (updEndDatePlanned v p).startDate = p.startDate := by cases v <;> rfl

@[simp] lemma updEndDatePlanned_endDateActual (v : Option Int) (p : Project) :
    (updEndDatePlanned v p).endDateActual = p.endDateActual := by cases v <;> rfl

@[simp] lemma updEndDatePlanned_some (e : Int) (p : Project) :
    (updEndDatePlanned (some e) p).endDatePlanned = some e := rfl

@[simp] lemma updObservations_startDate (v : Option String) (p : Project) :
    (updObservations v p).startDate = p.startDate := by cases v <;> rfl

@[simp] lemma updObservations_endDatePlanned (v : Option String) (p : Project) :
    (updObservations v p).endDatePlanned = p.endDatePlanned := by cases v <;> rfl

@[simp] lemma updObservations_endDateActual (v : Option String) (p : Project) :
    (updObservations v p).endDateActual = p.endDateActual := by cases v <;> rfl

@[simp] lemma updEstimatedValue_startDate (v : Option String) (p : Project) :
    (updEstimatedValue v p).startDate = p.startDate := by cases v <;> rfl

@[simp] lemma updEstimatedValue_endDatePlanned (v : Option String) (p : Project) :
    (updEstimatedValue v p).endDatePlanned = p.endDatePlanned := by cases v <;> rfl

@[simp] lemma updEstimatedValue_endDateActual (v : Option String) (p : Project) :
    (updEstimatedValue v p).endDateActual = p.endDateActual := by cases v <;> rfl

@[simp] lemma datesValid_updEndDatePlanned_some (e : Int) (p : Project) :
    datesValid (updEndDatePlanned (some e) p) = !(decide (e < p.startDate)) := rfl

lemma datesValid_iff (p : Project) :
    datesValid p = true ↔ ∀ e : Int, p.endDatePlanned = some e → p.startDate ≤ e := by
  cases h : p.endDatePlanned with
  | none => simp [datesValid, h]
  | some e => simp [datesValid, h, not_lt]

/-- Claim C6: construction succeeds exactly when plannedEndDate is absent or at
least startDate, fails with a validation error when plannedEndDate < startDate,
and updateDetails supplying a new plannedEndDate re-validates the same rule,
rejecting (never clamping) a plannedEndDate earlier than startDate while
accepting one at or after it. -/
theorem project_date_validation :
    (∀ p : Project, exceptOk (Project.validated p) = true ↔
      ∀ e : Int, p.endDatePlanned = some e → p.startDate ≤ e)
    ∧ (∀ (p : Project) (e : Int), p.endDatePlanned = some e → e < p.startDate →
        Project.validated p = Except.error DomainError.businessRuleViolation)
    ∧ (∀ (p : Project) (nm ds ob ev : Option String) (e : Int), p.isModifiable = true →
        e < p.startDate →
        p.updateDetails nm ds (some e) ob ev = Except.error DomainError.businessRuleViolation)
    ∧ (∀ (p : Project) (nm ds ob ev : Option String) (e : Int), p.isModifiable = true →
        p.startDate ≤ e →
        ∃ p', p.updateDetails nm ds (some e) ob ev = Except.ok p' ∧
          p'.endDatePlanned = some e) := by
  refine ⟨?_, ?_, ?_, ?_⟩
  · intro p
    rw [show exceptOk (Project.validated p) = datesValid p by
      by_cases hd : datesValid p = true <;> simp [Project.validated, exceptOk, hd]]
    exact datesValid_iff p
  · intro p e he hlt
    have hd : datesValid p = false := by simp [datesValid, he, hlt]
    simp [Project.validated, hd]
  · intro p nm ds ob ev e hmod hlt
    simp [Project.updateDetails, hmod, hlt]
  · intro p nm ds ob ev e hmod hle
    simp [Project.updateDetails, hmod, not_lt.mpr hle]

theorem project_date_validation_witness :
    ((3 : Int) < 5 ∧
      Project.validated { startDate := 5, endDatePlanned := some 3 } =
        Except.error DomainError.businessRuleViolation)
    ∧ (({ startDate := 0 } : Project).isModifiable = true ∧ (-2 : Int) < 0 ∧
      Project.updateDetails { startDate := 0 } none none (some (-2)) none none =
        Except.error DomainError.businessRuleViolation) :=
  ⟨⟨by decide, project_date_validation.2.1 _ 3 rfl (by decide)⟩,
   ⟨by decide, by decide,
    project_date_validation.2.2.1 _ none none none none (-2) (by decide) (by decide)⟩⟩

/-- Claim C7: end_date_actual is assigned only by complete(), which succeeds
exactly from EM_ANDAMENTO, sets status CONCLUIDO and end_date_actual to the
supplied completion date (or today when absent); start, pause, cancel and
updateDetails never change end_date_actual. -/
theorem end_date_actual_only_by_complete :
    (∀ p p' : Project, p.start = Except.ok p' → p'.endDateActual = p.endDateActual)
    ∧ (∀ p p' : Project, p.pause = Except.ok p' → p'.endDateActual = p.endDateActual)
    ∧ (∀ (p p' : Project) (r : Option String), p.cancel r = Except.ok p' →
        p'.endDateActual = p.endDateActual)
    ∧ (∀ (p p' : Project) (nm ds : Option String) (e : Option Int) (ob ev : Option String),
        p.updateDetails nm ds e ob ev = Except.ok p' → p'.endDateActual = p.endDateActual)
    ∧ (∀ (p : Project) (today : Int) (cd : Option Int),
        exceptOk (p.complete today cd) = true ↔ p.status = ProjectStatus.emAndamento)
    ∧ (∀ (p p' : Project) (today : Int) (cd : Option Int), p.complete today cd = Except.ok p' →
        p'.status = ProjectStatus.concluido ∧ p'.endDateActual = some (cd.getD today)) := by
  refine ⟨?_, ?_, ?_, ?_, ?_, ?_⟩
  · intro p p' h
    unfold Project.start at h
    split at h
    · cases h; rfl
    · cases h
  · intro p p' h
    unfold Project.pause at h
    split at h
    · cases h; rfl
    · cases h
  · intro p p' r h
    unfold Project.cancel at h
    split at h
    · cases h
    · split at h <;> (cases h; rfl)
  · intro p p' nm ds e ob ev h
    unfold Project.updateDetails at h
    simp only [] at h
    split at h
    · split at h
      · cases h
      · cases h; simp
    · cases h
  · intro p today cd
    by_cases hs : p.status = ProjectStatus.emAndamento <;>
      simp [Project.complete, exceptOk, hs]
  · intro p p' today cd h
    unfold Project.complete at h
    split at h
    · cases h; exact ⟨rfl, rfl⟩
    · cases h

/-- Concrete project in PLANEJAMENTO used by the C7 witness. -/
def c7plan : Project := { status := ProjectStatus.planejamento }

/-- Concrete project in EM_ANDAMENTO used by the C7 witness. -/
def c7running : Project := { status := ProjectStatus.emAndamento }

/-- Concrete completed project used by the C7 witness. -/
def c7done : Project := { status := ProjectStatus.concluido, endDateActual := some 4 }

theorem end_date_actual_only_by_complete_witness :
    (c7plan.start = Except.ok c7running ∧ c7running.endDateActual = c7plan.endDateActual)
    ∧ (c7running.complete 9 (some 4) = Except.ok c7done ∧
        c7done.status = ProjectStatus.concluido ∧
        c7done.endDateActual = some ((some (4 : Int)).getD 9)) :=
  ⟨⟨by decide, end_date_actual_only_by_complete.1 c7plan c7running (by decide)⟩,
   ⟨by decide,
    end_date_actual_only_by_complete.2.2.2.2.2 c7running c7done 9 (some 4) (by decide)⟩⟩

/-- Example project used by the C8 counterexample: a cancellable project whose
observations field already holds text. -/
def c8base : Project := { status := ProjectStatus.planejamento, observations := some "x" }

/-- Claim C8 counterexample: cancelling with the empty-string reason supplied
(`reason = ""`) succeeds but leaves observations unchanged, because the code
tests `if reason:` by truthiness; the claim's required combined string does not
appear. -/
theorem cancel_empty_reason_counterexample :
    c8base.cancel (some "") = Except.ok { c8base with status := ProjectStatus.cancelado }
    ∧ ({ c8base with status := ProjectStatus.cancelado }).observations = some "x"
    ∧ ("x" : String) ≠ "[CANCELADO] " ++ "" ++ "\n" ++ "x" := by decide

/-- Claim C8 (amended): cancel() fails iff status is CONCLUIDO; from every other
status (including CANCELADO) it succeeds and sets status CANCELADO; when a
NON-EMPTY reason is supplied the reason is combined with the prior observations
by prefixed, newline-joined concatenation; an absent or empty-string reason
leaves observations unchanged. -/
theorem cancel_behavior :
    (∀ (p : Project) (r : Option String),
      exceptOk (p.cancel r) = true ↔ p.status ≠ ProjectStatus.concluido)
    ∧ (∀ (p p' : Project) (r : Option String), p.cancel r = Except.ok p' →
        p'.status = ProjectStatus.cancelado)
    ∧ (∀ (p p' : Project) (s : String), s ≠ "" → p.cancel (some s) = Except.ok p' →
        p'.observations = some ("[CANCELADO] " ++ s ++ "\n" ++ p.observations.getD ""))
    ∧ (∀ p p' : Project, p.cancel none = Except.ok p' → p'.observations = p.observations)
    ∧ (∀ p p' : Project, p.cancel (some "") = Except.ok p' →
        p'.observations = p.observations) := by
  refine ⟨?_, ?_, ?_, ?_, ?_⟩
  · intro p r
    by_cases hs : p.status = ProjectStatus.concluido <;>
      [simp [Project.cancel, exceptOk, hs];
       (by_cases ht : optStrTruthy r = true <;> simp [Project.cancel, exceptOk, hs, ht])]
  · intro p p' r h
    unfold Project.cancel at h
    split at h
    · cases h
    · split at h <;> (cases h; rfl)
  · intro p p' s hs h
    unfold Project.cancel at h
    split at h
    · cases h
    · have ht : optStrTruthy (some s) = true := by simp [optStrTruthy, hs]
      rw [if_pos ht] at h
      cases h
      rfl
  · intro p p' h
    unfold Project.cancel at h
    split at h
    · cases h
    · have ht : optStrTruthy none = false := rfl
      rw [ht] at h
      cases h
      rfl
  · intro p p' h
    unfold Project.cancel at h
    split at h
    · cases h
    · have ht : optStrTruthy (some "") = false := by decide
      rw [ht] at h
      cases h
      rfl

/-- Concrete paused project with existing observations, used by the C8 witness. -/
def c8input : Project := { status := ProjectStatus.pausado, observations := some "old" }

/-- Cancelled state of `c8input` with the combined observations string, used by
the C8 witness. -/
def c8result : Project :=
  { status := ProjectStatus.cancelado, observations := some "[CANCELADO] reason\nold" }

theorem cancel_behavior_witness :
    ("reason" : String) ≠ "" ∧
    c8input.cancel (some "reason") = Except.ok c8result ∧
    c8result.observations =
      some ("[CANCELADO] " ++ "reason" ++ "\n" ++ c8input.observations.getD "") :=
  ⟨by decide, by decide, cancel_behavior.2.2.1 _ _ "reason" (by decide) (by decide)⟩

/-- ORM row of table `projetos` (`models/project.py`), with the scalar columns the
repository reads and writes; audit timestamp columns are omitted (no claim
mentions them). -/
structure ProjRow where
  id : Nat
  nome : String := ""
  descricao : Option String := none
  dataInicio : Int := 0
  dataFimPrevista : Option Int := none
  dataFimReal : Option Int := none
  status : ProjectStatus := ProjectStatus.planejamento
  clienteId : Nat := 0
  responsavelId : Nat := 0
  observacoes : Option String := none
  valorEstimado : Option String := none
  deletedAt : Option Int := none
deriving DecidableEq, Repr

/-- Row of the `project_contributors` association table. -/
structure ContribRow where
  projectId : Nat
  userId : Nat
deriving DecidableEq, Repr

/-- Row of table `anexos` (attachments), keyed to a check-in. -/
structure AnexoRow where
  id : Nat
  checkinId : Nat
deriving DecidableEq, Repr

/-- Row of table `tarefas_executadas` (executed tasks), keyed to a check-in. -/
structure TarefaRow where
  id : Nat
  checkinId : Nat
deriving DecidableEq, Repr

/-- Row of table `checkins`, keyed to a project. -/
structure CheckinRow where
  id : Nat
  projetoId : Nat
deriving DecidableEq, Repr

/-- Row of table `sprint_tasks`, keyed to a sprint. -/
structure SprintTaskRow where
  id : Nat
  sprintId : Nat
deriving DecidableEq, Repr

/-- Row of table `sprints`, keyed to a project. -/
structure SprintRow where
  id : Nat
  projectId : Nat
deriving DecidableEq, Repr

/-- Row of table `logs_auditoria` (audit log): table name plus record id. -/
structure AuditRow where
  id : Nat
  tabela : String
  registroId : Nat
deriving DecidableEq, Repr

/-- Relational database state: the tables touched by
`SQLAlchemyProjectRepository`.  The `projetos` list is kept in primary-key
order (the index the SQL `ORDER BY id` walks); theorems about ordered queries
carry that invariant as a `Pairwise` hypothesis. -/
structure Db where
  projetos : List ProjRow := []
  projectContributors : List ContribRow := []
  anexos : List AnexoRow := []
  tarefasExecutadas : List TarefaRow := []
  checkins : List CheckinRow := []
  sprintTasks : List SprintTaskRow := []
  sprints : List SprintRow := []
  logsAuditoria : List AuditRow := []
deriving DecidableEq, Repr

/-- SQLAlchemy session bound to one transaction: `committed` is the durable
database state, `pending` the transaction's view (statements already executed
but not committed).  `nextId` models the `projetos` autoincrement counter. -/
structure Sess where
  committed : Db
  pending : Db
  nextId : Nat := 1
deriving DecidableEq, Repr

/-- Open a fresh session over a database (entering a new `TransactionScope`). -/
def Sess.fresh (db : Db) (nid : Nat) : Sess :=
  { committed := db, pending := db, nextId := nid }

/-- `session.commit()`: pending statements become durable. -/
def Sess.commitTx (s : Sess) : Sess :=
  { s with committed := s.pending }

/-- `session.rollback()`: pending statements are discarded. -/
def Sess.rollbackTx (s : Sess) : Sess :=
  { s with pending := s.committed }

/-- Repository errors from `domain/repositories/project_repository.py`:
`ProjectNotFoundError` and `RepositoryError`. -/
inductive RepoError
  | projectNotFound
  | repositoryError
deriving DecidableEq, Repr

/-- Mapping `_to_orm` (sqlalchemy_project_repository.py:102-130): domain entity
to a new ORM row; `deleted_at` is not set (column default NULL). -/
def toOrm (p : Project) (rid : Nat) : ProjRow :=
  { id := rid
    nome := p.name
    descricao := p.description
    dataInicio := p.startDate
    dataFimPrevista := p.endDatePlanned
    dataFimReal := p.endDateActual
    status := p.status
    clienteId := p.clientId
    responsavelId := p.responsibleUserId
    observacoes := p.observations
    valorEstimado := p.estimatedValue
    deletedAt := none }

/-- Mapping `_update_orm` (sqlalchemy_project_repository.py:132-154): overwrite
the scalar columns of an existing row from the domain entity. -/
def updateOrm (r : ProjRow) (p : Project) : ProjRow :=
  { r with
    nome := p.name
    descricao := p.description
    dataInicio := p.startDate
    dataFimPrevista := p.endDatePlanned
    dataFimReal := p.endDateActual
    status := p.status
    clienteId := p.clientId
    responsavelId := p.responsibleUserId
    observacoes := p.observations
    valorEstimado := p.estimatedValue }

/-- Mapping `_to_domain` (sqlalchemy_project_repository.py:59-100): ORM row to
domain entity (the transient relationship enrichments are not modelled). -/
def toDomain (r : ProjRow) : Project :=
  { id := some r.id
    name := r.nome
    description := r.descricao
    startDate := r.dataInicio
    endDatePlanned := r.dataFimPrevista
    endDateActual := r.dataFimReal
    status := r.status
    clientId := r.clienteId
    responsibleUserId := r.responsavelId
    observations := r.observacoes
    estimatedValue := r.valorEstimado
    deletedAt := r.deletedAt }

/-- Repository `save` (sqlalchemy_project_repository.py:160-196).  Create path:
`session.add` of the new row, then `session.commit()` (line 167) — the commit
happens INSIDE `save`, not in the Unit of Work.  Update path: look up the live
row by id (`filter_by(id=..., deleted_at=None)`), raise `ProjectNotFoundError`
when absent, else overwrite and again `session.commit()` (line 185). -/
def repoSave (s : Sess) (p : Project) : Except RepoError (Sess × Project) :=
  match p.id with
  | none =>
      let row := toOrm p s.nextId
      let s1 : Sess :=
        { s with
          pending := { s.pending with projetos := s.pending.projetos ++ [row] }
          nextId := s.nextId + 1 }
      Except.ok (s1.commitTx, toDomain row)
  | some pid =>
      match (s.pending.projetos.filter
          (fun r => r.id == pid && r.deletedAt.isNone)).head? with
      | none => Except.error RepoError.projectNotFound
      | some r =>
          let s1 : Sess :=
            { s with
              pending := { s.pending with
                projetos := s.pending.projetos.map
                  (fun q => if q.id == pid && q.deletedAt.isNone then updateOrm q p else q) } }
          Except.ok (s1.commitTx, toDomain (updateOrm r p))

/-- Repository `get_by_id` (sqlalchemy_project_repository.py:198-218):
first live row with the given id, as seen by this session's transaction. -/
def repoGetById (s : Sess) (pid : Nat) : Option ProjRow :=
  (s.pending.projetos.filter (fun r => r.id == pid && r.deletedAt.isNone)).head?

/-- Status filter of `get_all`/`get_with_cursor`: `if status:` — the Python
enum members are non-empty strings, all truthy, so the filter applies exactly
when a status argument is present. -/
def statusOk (status : Option ProjectStatus) (r : ProjRow) : Bool :=
  match status with
  | none => true
  | some st => r.status == st

/-- Truthiness of an optional integer argument (`if client_id:`,
`if responsible_id:`): `None` and `0` are falsy, so the filter is skipped for
both. -/
def natArgActive (v : Option Nat) : Bool :=
  match v with
  | none => false
  | some n => !(n == 0)

/-- Client filter of `get_all`/`get_with_cursor`: applied only when the
argument is truthy. -/
def clientOk (clientId : Option Nat) (r : ProjRow) : Bool :=
  if natArgActive clientId then r.clienteId == clientId.getD 0 else true

/-- Responsible filter of `get_all` (lines 252-258): applied only when truthy;
matches the responsible user or any contributor
(`or_(responsavel_id == rid, contributors.any(id=rid))`). -/
def respOk (contribs : List ContribRow) (responsibleId : Option Nat) (r : ProjRow) : Bool :=
  if natArgActive responsibleId then
    r.responsavelId == responsibleId.getD 0 ||
      contribs.any (fun c => c.projectId == r.id && c.userId == responsibleId.getD 0)
  else true

/-- Combined WHERE clause of `get_all` (sqlalchemy_project_repository.py:234-258),
in code order: live rows, then optional status, client and responsible filters. -/
def getAllFilter (contribs : List ContribRow) (status : Option ProjectStatus)
    (clientId responsibleId : Option Nat) (r : ProjRow) : Bool :=
  r.deletedAt.isNone && statusOk status r && clientOk clientId r &&
    respOk contribs responsibleId r

/-- Repository `get_all` (sqlalchemy_project_repository.py:220-267): filter,
then `offset(skip).limit(limit)`.  No ORDER BY and — note — no cap on `limit`. -/
def repoGetAll (s : Sess) (skip limit : Nat) (status : Option ProjectStatus)
    (clientId responsibleId : Option Nat) : List ProjRow :=
  (((s.pending.projetos.filter
      (getAllFilter s.pending.projectContributors status clientId responsibleId)).drop
    skip).take limit)

/-- `ProjectService.list_projects` (project_service.py:179-211): clamps
`limit = min(limit, 100)` and delegates to the repository's `get_all`. -/
def serviceListProjects (s : Sess) (skip limit : Nat) (status : Option ProjectStatus)
    (clientId responsibleId : Option Nat) : List ProjRow :=
  repoGetAll s skip (min limit 100) status clientId responsibleId

/-- Keyset condition of `get_with_cursor` (lines 313-314): `id > cursor` when a
cursor is present (`if cursor is not None`). -/
def cursorOk (cursor : Option Nat) (r : ProjRow) : Bool :=
  match cursor with
  | none => true
  | some c => c < r.id

/-- Combined WHERE clause of `get_with_cursor`
(sqlalchemy_project_repository.py:303-322), in code order: live rows, keyset
condition, optional status and client filters. -/
def cursorFilter (cursor : Option Nat) (status : Option ProjectStatus)
    (clientId : Option Nat) (r : ProjRow) : Bool :=
  r.deletedAt.isNone && cursorOk cursor r && statusOk status r && clientOk clientId r

/-- Repository `get_with_cursor` (sqlalchemy_project_repository.py:269-352):
fetch `limit + 1` matching rows in id order; if more than `limit` came back,
trim to `limit` and return the last retained id as `next_cursor`
(`orm_projects[-1].id if orm_projects else None`), else `next_cursor` is
absent. -/
def getWithCursor (s : Sess) (cursor : Option Nat) (limit : Nat)
    (status : Option ProjectStatus) (clientId : Option Nat) :
    List ProjRow × Option Nat :=
  let rows := (s.pending.projetos.filter (cursorFilter cursor status clientId)).take (limit + 1)
  if limit < rows.length then
    let page := rows.take limit
    (page, page.getLast?.map (fun r => r.id))
  else
    (rows, none)

/-- The caller loop of claim C2: call `get_with_cursor`, then keep passing the
returned `next_cursor` back until it is absent, concatenating the pages.
`fuel` bounds the number of round trips (any value at least the table length
is enough for the loop to reach its natural end). -/
def paginateCursor (s : Sess) (limit : Nat) (status : Option ProjectStatus)
    (clientId : Option Nat) : Nat → Option Nat → List ProjRow
  | 0, _ => []
  | fuel + 1, cursor =>
      match getWithCursor s cursor limit status clientId with
      | (page, none) => page
      | (page, some c) => page ++ paginateCursor s limit status clientId fuel (some c)

/-- The seven dependent DELETE statements plus the final project DELETE of the
repository's `delete` (sqlalchemy_project_repository.py:441-510), executed in
code order against the transaction's pending state: project_contributors,
anexos of the project's checkins, tarefas_executadas of the project's checkins,
checkins, sprint_tasks of the project's sprints, sprints, logs_auditoria rows
with `tabela = 'projetos'` for this record, then the `projetos` row itself. -/
def cascadePending (db : Db) (pid : Nat) : Db :=
  let db1 := { db with
    projectContributors := db.projectContributors.filter (fun c => !(c.projectId == pid)) }
  let db2 := { db1 with
    anexos := db1.anexos.filter
      (fun a => !(db1.checkins.any (fun c => c.id == a.checkinId && c.projetoId == pid))) }
  let db3 := { db2 with
    tarefasExecutadas := db2.tarefasExecutadas.filter
      (fun t => !(db2.checkins.any (fun c => c.id == t.checkinId && c.projetoId == pid))) }
  let db4 := { db3 with
    checkins := db3.checkins.filter (fun c => !(c.projetoId == pid)) }
  let db5 := { db4 with
    sprintTasks := db4.sprintTasks.filter
      (fun t => !(db4.sprints.any (fun sp => sp.id == t.sprintId && sp.projectId == pid))) }
  let db6 := { db5 with
    sprints := db5.sprints.filter (fun sp => !(sp.projectId == pid)) }
  let db7 := { db6 with
    logsAuditoria := db6.logsAuditoria.filter
      (fun l => !(l.tabela == "projetos" && l.registroId == pid)) }
  { db7 with projetos := db7.projetos.filter (fun r => !(r.id == pid)) }

/-- Repository `delete` (sqlalchemy_project_repository.py:441-529): run the
cascade statements, then check the rowcount of the `projetos` DELETE; when it
is zero, return `False` without commit and without rollback, leaving the
already-executed dependent deletions pending on the session; otherwise
`session.commit()` and return `True`. -/
def repoDelete (s : Sess) (pid : Nat) : Sess × Bool :=
  let pending1 := cascadePending s.pending pid
  let rowcount := (s.pending.projetos.filter (fun r => r.id == pid)).length
  let s1 : Sess := { s with pending := pending1 }
  if rowcount = 0 then (s1, false) else (s1.commitTx, true)

/-- Guard-level state of `SqlAlchemyUnitOfWork`: whether `_session` is
currently set (an active scope) and whether `_projects` has already been
constructed.  `__enter__` (unit_of_work.py:98-106) sets the session;
`__exit__` (108-141) closes it and sets `_session = None`, but never resets
`_projects`. -/
structure UowGuard where
  sessionActive : Bool := false
  projectsCached : Bool := false
deriving DecidableEq, Repr

/-- The `RuntimeError` raised by the Unit of Work guards. -/
inductive UowError
  | runtimeError
deriving DecidableEq, Repr

/-- `__enter__`: creates a new session; `_projects` keeps whatever value it had. -/
def UowGuard.enter (u : UowGuard) : UowGuard :=
  { u with sessionActive := true }

/-- `__exit__`: closes the session and sets `_session = None`; `_projects` is
not cleared. -/
def UowGuard.exitScope (u : UowGuard) : UowGuard :=
  { u with sessionActive := false }

/-- The `projects` property (unit_of_work.py:143-158): a cached repository is
returned unconditionally; only lazy construction checks `_session is None` and
raises `RuntimeError`. -/
def UowGuard.accessProjects (u : UowGuard) : Except UowError UowGuard :=
  if u.projectsCached then Except.ok u
  else if u.sessionActive then Except.ok { u with projectsCached := true }
  else Except.error UowError.runtimeError

/-- Entry guard of `commit` (unit_of_work.py:185-186):
`if self._session is None: raise RuntimeError(...)`. -/
def UowGuard.commitGuard (u : UowGuard) : Except UowError Unit :=
  if u.sessionActive then Except.ok () else Except.error UowError.runtimeError

/-- Entry guard of `rollback` (unit_of_work.py:208-209). -/
def UowGuard.rollbackGuard (u : UowGuard) : Except UowError Unit :=
  if u.sessionActive then Except.ok () else Except.error UowError.runtimeError

/-- Entry guard of `flush` (unit_of_work.py:230-231). -/
def UowGuard.flushGuard (u : UowGuard) : Except UowError Unit :=
  if u.sessionActive then Except.ok () else Except.error UowError.runtimeError

/-- Claim C9: get_all tests its filter arguments by truthiness, so a call with
clientId = 0 (or responsibleId = 0) applies no client filter at all and returns
exactly what the unfiltered call returns. -/
theorem get_all_zero_filters_ignored :
    ∀ (s : Sess) (skip limit : Nat) (st : Option ProjectStatus),
      repoGetAll s skip limit st (some 0) none = repoGetAll s skip limit st none none
      ∧ repoGetAll s skip limit st none (some 0) = repoGetAll s skip limit st none none := by
  intro s skip limit st
  have hg1 : getAllFilter s.pending.projectContributors st (some 0) none =
      getAllFilter s.pending.projectContributors st none none := by
    funext r
    simp [getAllFilter, clientOk, natArgActive]
  have hg2 : getAllFilter s.pending.projectContributors st none (some 0) =
      getAllFilter s.pending.projectContributors st none none := by
    funext r
    simp [getAllFilter, respOk, natArgActive]
  constructor <;> simp [repoGetAll, hg1, hg2]

/-- Row constructor for the table of 101 live projects used by the C4
counterexample. -/
def bigRow (n : Nat) : ProjRow := { id := n + 1 }

/-- Database with 101 live projects, used by the C4 counterexample. -/
def bigDb : Db := { projetos := (List.range 101).map bigRow }

/-- Claim C4 counterexample: the repository's get_all applies no cap at all — a
direct call with limit = 101 over 101 live rows returns 101 entries, more than
the claimed hard ceiling of 100 (the repository itself is even called with
limit = 1000 by get_by_client and get_active_projects). -/
theorem get_all_no_cap_counterexample :
    100 < (repoGetAll (Sess.fresh bigDb 102) 0 101 none none none).length := by
  have hf : bigDb.projetos.filter (getAllFilter bigDb.projectContributors none none none) =
      bigDb.projetos := by
    apply List.filter_eq_self.mpr
    intro r hr
    obtain ⟨n, _, rfl⟩ := List.mem_map.mp hr
    rfl
  have hres : repoGetAll (Sess.fresh bigDb 102) 0 101 none none none =
      bigDb.projetos.take 101 := by
    show ((bigDb.projetos.filter (getAllFilter bigDb.projectContributors none none none)).drop
        0).take 101 = bigDb.projetos.take 101
    rw [hf, List.drop_zero]
  rw [hres]
  have hlen : bigDb.projetos.length = 101 := by
    simp [bigDb]
  simp [List.length_take, hlen]

/-- Claim C4 (amended): the 100-row cap is enforced in
ProjectService.list_projects, which clamps the caller's limit to
min(limit, 100) before delegating to the repository; every service-level
listing therefore returns at most 100 entries (the repository's get_all itself
applies no cap, see the counterexample). -/
theorem service_list_projects_capped :
    ∀ (s : Sess) (skip limit : Nat) (st : Option ProjectStatus) (cid rid : Option Nat),
      (serviceListProjects s skip limit st cid rid).length ≤ 100 := by
  intro s skip limit st cid rid
  simp only [serviceListProjects, repoGetAll, List.length_take]
  omega

/-- Claim C5 counterexample: enter a scope and touch `projects` (constructing
and caching the repository), exit the scope; a subsequent `projects` access
succeeds silently, returning the cached store bound to the closed session,
instead of failing with the IllegalState-style RuntimeError the claim
requires. -/
theorem uow_stale_repository_counterexample :
    (({} : UowGuard).enter).accessProjects =
      Except.ok { sessionActive := true, projectsCached := true }
    ∧ UowGuard.exitScope { sessionActive := true, projectsCached := true } =
      { sessionActive := false, projectsCached := true }
    ∧ UowGuard.accessProjects { sessionActive := false, projectsCached := true } =
      Except.ok { sessionActive := false, projectsCached := true } := by decide

/-- Claim C5 (amended): outside an active scope, commit, flush and rollback
always fail loudly with RuntimeError, and so does a store access when the store
was never constructed inside a scope; but once the store has been constructed,
later accesses outside any active scope silently return the cached store. -/
theorem uow_guards_outside_scope :
    ∀ u : UowGuard, u.sessionActive = false →
      u.commitGuard = Except.error UowError.runtimeError
      ∧ u.rollbackGuard = Except.error UowError.runtimeError
      ∧ u.flushGuard = Except.error UowError.runtimeError
      ∧ (u.projectsCached = false → u.accessProjects = Except.error UowError.runtimeError)
      ∧ (u.projectsCached = true → u.accessProjects = Except.ok u) := by
  intro u h
  refine ⟨?_, ?_, ?_, ?_, ?_⟩
  · simp [UowGuard.commitGuard, h]
  · simp [UowGuard.rollbackGuard, h]
  · simp [UowGuard.flushGuard, h]
  · intro hc
    simp [UowGuard.accessProjects, h, hc]
  · intro hc
    simp [UowGuard.accessProjects, hc]

theorem uow_guards_outside_scope_witness :
    (({} : UowGuard).sessionActive = false)
    ∧ ({} : UowGuard).commitGuard = Except.error UowError.runtimeError :=
  ⟨by decide, (uow_guards_outside_scope {} (by decide)).1⟩

/-- Project handed to `save` in the C1 scenario (no id, so the create path
runs). -/
def c1Project : Project := { name := "p", clientId := 1, responsibleUserId := 1 }

/-- Durable database state after the C1 scenario: inside one scope, save two
new projects through the scope's repository, then hit an injected failure
before the scope's `commit()` is ever called — `__exit__` rolls the session
back and closes it.  Because `save` itself committed (repository lines 167 and
185), the rollback has nothing left to undo. -/
def c1ScenarioDb : Db :=
  match repoSave (Sess.fresh {} 1) c1Project with
  | Except.error _ => {}
  | Except.ok (s1, _) =>
      match repoSave s1 c1Project with
      | Except.error _ => {}
      | Except.ok (s2, _) => s2.rollbackTx.committed

/-- Claim C1, evaluated at the failing input: after two saves in one scope and
an injected failure before the scope's commit, a fresh scope still sees BOTH
saved rows — the repository's save commits eagerly, so the claimed all-or-
nothing scope commit does not hold (contradicting the Unit of Work's own
documentation and its integration tests). -/
theorem uow_save_commits_eagerly :
    repoGetById (Sess.fresh c1ScenarioDb 3) 1 = some (toOrm c1Project 1)
    ∧ repoGetById (Sess.fresh c1ScenarioDb 3) 2 = some (toOrm c1Project 2) := by decide

/-- Claim C3: for every project id present in the store, delete removes the
project row and exactly the rows transitively referencing it — contributors,
attachments and executed tasks of its check-ins, the check-ins, sprint tasks of
its sprints, the sprints, and its audit-log entries — commits the result,
returns True, and keeps every row that does not reference the project
(in particular every row of any other project). -/
theorem delete_cascade_removes_dependents :
    ∀ (db : Db) (nid pid : Nat), (∃ r ∈ db.projetos, r.id = pid) →
      (repoDelete (Sess.fresh db nid) pid).2 = true
      ∧ (repoDelete (Sess.fresh db nid) pid).1.committed = cascadePending db pid
      ∧ (repoDelete (Sess.fresh db nid) pid).1.pending = cascadePending db pid
      ∧ (cascadePending db pid).projetos = db.projetos.filter (fun r => !(r.id == pid))
      ∧ (cascadePending db pid).projectContributors =
          db.projectContributors.filter (fun c => !(c.projectId == pid))
      ∧ (cascadePending db pid).anexos = db.anexos.filter
          (fun a => !(db.checkins.any (fun c => c.id == a.checkinId && c.projetoId == pid)))
      ∧ (cascadePending db pid).tarefasExecutadas = db.tarefasExecutadas.filter
          (fun t => !(db.checkins.any (fun c => c.id == t.checkinId && c.projetoId == pid)))
      ∧ (cascadePending db pid).checkins = db.checkins.filter (fun c => !(c.projetoId == pid))
      ∧ (cascadePending db pid).sprintTasks = db.sprintTasks.filter
          (fun t => !(db.sprints.any (fun sp => sp.id == t.sprintId && sp.projectId == pid)))
      ∧ (cascadePending db pid).sprints = db.sprints.filter (fun sp => !(sp.projectId == pid))
      ∧ (cascadePending db pid).logsAuditoria = db.logsAuditoria.filter
          (fun l => !(l.tabela == "projetos" && l.registroId == pid))
      ∧ (∀ r ∈ db.projetos, r.id ≠ pid → r ∈ (cascadePending db pid).projetos)
      ∧ (∀ c ∈ db.checkins, c.projetoId ≠ pid → c ∈ (cascadePending db pid).checkins)
      ∧ (∀ a ∈ db.anexos, (∀ c ∈ db.checkins, c.id = a.checkinId → c.projetoId ≠ pid) →
          a ∈ (cascadePending db pid).anexos) := by
  intro db nid pid hex
  obtain ⟨r, hr, hrid⟩ := hex
  have hmem : r ∈ db.projetos.filter (fun x => x.id == pid) :=
    List.mem_filter.mpr ⟨hr, by simp [hrid]⟩
  have hcount : ¬ ((db.projetos.filter (fun x => x.id == pid)).length = 0) := by
    simp only [List.length_eq_zero]
    exact fun hnil => List.not_mem_nil r (hnil ▸ hmem)
  refine ⟨?_, ?_, ?_, rfl, rfl, rfl, rfl, rfl, rfl, rfl, rfl, ?_, ?_, ?_⟩
  · simp only [repoDelete, Sess.fresh]
    rw [if_neg hcount]
  · simp only [repoDelete, Sess.fresh]
    rw [if_neg hcount]
    rfl
  · simp only [repoDelete, Sess.fresh]
    rw [if_neg hcount]
    rfl
  · intro q hq hne
    have h4 : (cascadePending db pid).projetos =
        db.projetos.filter (fun x => !(x.id == pid)) := rfl
    rw [h4]
    exact List.mem_filter.mpr ⟨hq, by simp [hne]⟩
  · intro c hc hne
    have h8 : (cascadePending db pid).checkins =
        db.checkins.filter (fun x => !(x.projetoId == pid)) := rfl
    rw [h8]
    exact List.mem_filter.mpr ⟨hc, by simp [hne]⟩
  · intro a ha hnone
    have h6 : (cascadePending db pid).anexos = db.anexos.filter
        (fun x => !(db.checkins.any (fun c => c.id == x.checkinId && c.projetoId == pid))) := rfl
    rw [h6]
    refine List.mem_filter.mpr ⟨ha, ?_⟩
    simp only [Bool.not_eq_true', List.any_eq_false]
    intro c hc
    by_cases hid : c.id = a.checkinId
    · have hp := hnone c hc hid
      simp [hid, hp]
    · simp [hid]

/-- Two-project database exercising every cascaded table, used by the C3
witness: project 1 and project 2 each own a contributor, a check-in with one
attachment and one executed task, a sprint with one sprint task, and an audit
entry. -/
def c3db : Db :=
  { projetos := [{ id := 1 }, { id := 2 }]
    projectContributors := [⟨1, 7⟩, ⟨2, 8⟩]
    anexos := [⟨1, 10⟩, ⟨2, 11⟩]
    tarefasExecutadas := [⟨1, 10⟩, ⟨2, 11⟩]
    checkins := [⟨10, 1⟩, ⟨11, 2⟩]
    sprintTasks := [⟨1, 20⟩, ⟨2, 21⟩]
    sprints := [⟨20, 1⟩, ⟨21, 2⟩]
    logsAuditoria := [⟨1, "projetos", 1⟩, ⟨2, "projetos", 2⟩, ⟨3, "clientes", 1⟩] }

theorem delete_cascade_removes_dependents_witness :
    (∃ r ∈ c3db.projetos, r.id = 1)
    ∧ (repoDelete (Sess.fresh c3db 3) 1).2 = true
    ∧ (repoDelete (Sess.fresh c3db 3) 1).1.committed.projetos = [{ id := 2 }]
    ∧ (repoDelete (Sess.fresh c3db 3) 1).1.committed.checkins = [⟨11, 2⟩]
    ∧ (repoDelete (Sess.fresh c3db 3) 1).1.committed.anexos = [⟨2, 11⟩]
    ∧ (repoDelete (Sess.fresh c3db 3) 1).1.committed.sprints = [⟨21, 2⟩]
    ∧ (repoDelete (Sess.fresh c3db 3) 1).1.committed.logsAuditoria =
        [⟨2, "projetos", 2⟩, ⟨3, "clientes", 1⟩] :=
  ⟨by decide, (delete_cascade_removes_dependents c3db 3 1 (by decide)).1,
   by decide, by decide, by decide, by decide, by decide⟩

/-- Claim C10: when no project row carries the given id, delete returns False
without committing and without rolling back: the durable state is untouched,
while the dependent DELETE statements already issued in the same call remain
pending (uncommitted) on the session — for example dangling check-ins of that
project id are gone from the session's view but still present in the committed
state. -/
theorem delete_not_found_leaves_pending :
    ∀ (db : Db) (nid pid : Nat), (∀ r ∈ db.projetos, r.id ≠ pid) →
      (repoDelete (Sess.fresh db nid) pid).2 = false
      ∧ (repoDelete (Sess.fresh db nid) pid).1.committed = db
      ∧ (repoDelete (Sess.fresh db nid) pid).1.pending = cascadePending db pid
      ∧ (cascadePending db pid).projetos = db.projetos
      ∧ (cascadePending db pid).checkins =
          db.checkins.filter (fun c => !(c.projetoId == pid))
      ∧ (cascadePending db pid).sprints =
          db.sprints.filter (fun sp => !(sp.projectId == pid)) := by
  intro db nid pid habsent
  have hnil : db.projetos.filter (fun x => x.id == pid) = [] := by
    apply List.filter_eq_nil_iff.mpr
    intro r hr
    simp [habsent r hr]
  have hcount : (db.projetos.filter (fun x => x.id == pid)).length = 0 := by
    rw [hnil]
    rfl
  refine ⟨?_, ?_, ?_, ?_, rfl, rfl⟩
  · simp only [repoDelete, Sess.fresh]
    rw [if_pos hcount]
  · simp only [repoDelete, Sess.fresh]
    rw [if_pos hcount]
  · simp only [repoDelete, Sess.fresh]
    rw [if_pos hcount]
  · have h4 : (cascadePending db pid).projetos =
        db.projetos.filter (fun x => !(x.id == pid)) := rfl
    rw [h4]
    apply List.filter_eq_self.mpr
    intro r hr
    simp [habsent r hr]

/-- Database with a single dangling check-in for project id 1 and no project
rows, used by the C10 witness. -/
def c10db : Db := { checkins := [⟨10, 1⟩] }

theorem delete_not_found_leaves_pending_witness :
    (∀ r ∈ c10db.projetos, r.id ≠ 1)
    ∧ (repoDelete (Sess.fresh c10db 1) 1).2 = false
    ∧ (repoDelete (Sess.fresh c10db 1) 1).1.committed.checkins = [⟨10, 1⟩]
    ∧ (repoDelete (Sess.fresh c10db 1) 1).1.pending.checkins = [] :=
  ⟨by decide, (delete_not_found_leaves_pending c10db 1 1 (by decide)).1,
   by decide, by decide⟩

lemma cursorFilter_split (c : Option Nat) (st : Option ProjectStatus) (cl : Option Nat)
    (r : ProjRow) :
    cursorFilter c st cl r = (cursorFilter none st cl r && cursorOk c r) := by
  cases c with
  | none => simp [cursorOk]
  | some x =>
      simp only [cursorFilter, cursorOk]
      cases hd : r.deletedAt.isNone <;> cases hs : statusOk st r <;>
        cases hc : clientOk cl r <;> cases hx : decide (x < r.id) <;> rfl

lemma cursorFilter_cursorOk {c : Option Nat} {st : Option ProjectStatus} {cl : Option Nat}
    {r : ProjRow} (h : cursorFilter c st cl r = true) : cursorOk c r = true := by
  rw [cursorFilter_split] at h
  simp only [Bool.and_eq_true] at h
  exact h.2

lemma cursorOk_trans {c : Option Nat} {lr : ProjRow} (h : cursorOk c lr = true) {r : ProjRow}
    (hlt : lr.id < r.id) : cursorOk c r = true := by
  cases c with
  | none => rfl
  | some x =>
      simp only [cursorOk, decide_eq_true_eq] at h ⊢
      omega

lemma filter_advance (L : List ProjRow) (st : Option ProjectStatus) (cl : Option Nat)
    (c : Option Nat) (lr : ProjRow) (h : cursorOk c lr = true) :
    L.filter (cursorFilter (some lr.id) st cl) =
      (L.filter (cursorFilter c st cl)).filter (fun r => decide (lr.id < r.id)) := by
  rw [List.filter_filter]
  apply List.filter_congr
  intro r _
  rw [cursorFilter_split (some lr.id) st cl r, cursorFilter_split c st cl r]
  have h3 : cursorOk (some lr.id) r = decide (lr.id < r.id) := rfl
  cases hlt : decide (lr.id < r.id) with
  | false => simp [h3, hlt]
  | true =>
      have h2 : cursorOk c r = true := cursorOk_trans h (of_decide_eq_true hlt)
      simp [h3, hlt, h2]

lemma filter_get_lt_drop :
    ∀ (R : List ProjRow), R.Pairwise (fun a b => a.id < b.id) →
      ∀ (n : Nat) (hn : n < R.length),
        R.filter (fun r => decide ((R.get ⟨n, hn⟩).id < r.id)) = R.drop (n + 1) := by
  intro R
  induction R with
  | nil =>
      intro _ n hn
      simp at hn
  | cons a t ih =>
      intro hp n hn
      obtain ⟨hhead, hpt⟩ := List.pairwise_cons.mp hp
      cases n with
      | zero =>
          show (a :: t).filter (fun r => decide (a.id < r.id)) = t.drop 0
          rw [List.drop_zero, List.filter_cons,
            if_neg (show ¬ (decide (a.id < a.id) = true) by simp)]
          exact List.filter_eq_self.mpr (fun x hx => by simpa using hhead x hx)
      | succ m =>
          have hm : m < t.length := by simpa using hn
          show (a :: t).filter (fun r => decide ((t.get ⟨m, hm⟩).id < r.id)) = t.drop (m + 1)
          have hlt2 : a.id < (t.get ⟨m, hm⟩).id := hhead _ (List.get_mem t m hm)
          have hna : ¬ (decide ((t.get ⟨m, hm⟩).id < a.id) = true) := by
            simp only [decide_eq_true_eq]
            omega
          rw [List.filter_cons, if_neg hna]
          exact ih hpt m hm

lemma getWithCursor_last (s : Sess) (c : Option Nat) (limit : Nat)
    (st : Option ProjectStatus) (cl : Option Nat)
    (h : (s.pending.projetos.filter (cursorFilter c st cl)).length ≤ limit) :
    getWithCursor s c limit st cl =
      (s.pending.projetos.filter (cursorFilter c st cl), none) := by
  have hrows : (s.pending.projetos.filter (cursorFilter c st cl)).take (limit + 1) =
      s.pending.projetos.filter (cursorFilter c st cl) :=
    List.take_of_length_le (le_trans h (Nat.le_succ _))
  unfold getWithCursor
  simp only []
  rw [hrows, if_neg (by omega)]

lemma getWithCursor_more (s : Sess) (c : Option Nat) (limit : Nat)
    (st : Option ProjectStatus) (cl : Option Nat) (hlim : 1 ≤ limit)
    (hlt : limit < (s.pending.projetos.filter (cursorFilter c st cl)).length) :
    getWithCursor s c limit st cl =
      ((s.pending.projetos.filter (cursorFilter c st cl)).take limit,
        some (((s.pending.projetos.filter (cursorFilter c st cl)).get
          ⟨limit - 1, by omega⟩).id)) := by
  have hlen1 : ((s.pending.projetos.filter (cursorFilter c st cl)).take (limit + 1)).length =
      limit + 1 := by
    rw [List.length_take]
    omega
  have hpage : ((s.pending.projetos.filter (cursorFilter c st cl)).take (limit + 1)).take limit =
      (s.pending.projetos.filter (cursorFilter c st cl)).take limit := by
    rw [List.take_take]
    congr 1
    omega
  have hlast : ((s.pending.projetos.filter (cursorFilter c st cl)).take limit).getLast? =
      some ((s.pending.projetos.filter (cursorFilter c st cl)).get ⟨limit - 1, by omega⟩) := by
    rw [List.getLast?_eq_getElem?, List.length_take]
    have hmin : min limit (s.pending.projetos.filter (cursorFilter c st cl)).length = limit := by
      omega
    rw [hmin, List.getElem?_take, if_pos (by omega), List.getElem?_eq_getElem (by omega)]
    rfl
  have hcond : limit <
      ((s.pending.projetos.filter (cursorFilter c st cl)).take (limit + 1)).length := by
    rw [hlen1]
    omega
  unfold getWithCursor
  simp only []
  rw [if_pos hcond, hpage, hlast]
  rfl

lemma paginate_go (s : Sess) (st : Option ProjectStatus) (cl : Option Nat) (limit : Nat)
    (hlim : 1 ≤ limit) (hsort : s.pending.projetos.Pairwise (fun a b => a.id < b.id)) :
    ∀ (fuel : Nat) (c : Option Nat),
      (s.pending.projetos.filter (cursorFilter c st cl)).length ≤ fuel →
      paginateCursor s limit st cl fuel c =
        s.pending.projetos.filter (cursorFilter c st cl) := by
  intro fuel
  induction fuel with
  | zero =>
      intro c hle
      have hnil : s.pending.projetos.filter (cursorFilter c st cl) = [] :=
        List.length_eq_zero.mp (Nat.le_zero.mp hle)
      simp [paginateCursor, hnil]
  | succ fuel ih =>
      intro c hle
      have hsortR : (s.pending.projetos.filter (cursorFilter c st cl)).Pairwise
          (fun a b => a.id < b.id) :=
        List.Pairwise.sublist (List.filter_sublist _) hsort
      by_cases hcase : (s.pending.projetos.filter (cursorFilter c st cl)).length ≤ limit
      · rw [show paginateCursor s limit st cl (fuel + 1) c =
            (match getWithCursor s c limit st cl with
              | (page, none) => page
              | (page, some cnext) =>
                  page ++ paginateCursor s limit st cl fuel (some cnext)) from rfl]
        rw [getWithCursor_last s c limit st cl hcase]
      · push_neg at hcase
        have hn1 : limit - 1 < (s.pending.projetos.filter (cursorFilter c st cl)).length := by
          omega
        have hmore := getWithCursor_more s c limit st cl hlim hcase
        have hlr : (s.pending.projetos.filter (cursorFilter c st cl)).get ⟨limit - 1, hn1⟩ ∈
            s.pending.projetos.filter (cursorFilter c st cl) :=
          List.get_mem _ _ _
        have hcOk : cursorOk c
            ((s.pending.projetos.filter (cursorFilter c st cl)).get ⟨limit - 1, hn1⟩) = true :=
          cursorFilter_cursorOk (List.mem_filter.mp hlr).2
        have hadv := filter_advance s.pending.projetos st cl c
          ((s.pending.projetos.filter (cursorFilter c st cl)).get ⟨limit - 1, hn1⟩) hcOk
        have hdrop := filter_get_lt_drop (s.pending.projetos.filter (cursorFilter c st cl))
          hsortR (limit - 1) hn1
        have hsub : limit - 1 + 1 = limit := by omega
        rw [hsub] at hdrop
        have hlen' : (s.pending.projetos.filter (cursorFilter
            (some (((s.pending.projetos.filter (cursorFilter c st cl)).get
              ⟨limit - 1, hn1⟩).id)) st cl)).length ≤ fuel := by
          rw [hadv, hdrop, List.length_drop]
          omega
        rw [show paginateCursor s limit st cl (fuel + 1) c =
              (match getWithCursor s c limit st cl with
                | (page, none) => page
                | (page, some cnext) =>
                    page ++ paginateCursor s limit st cl fuel (some cnext)) from rfl]
        rw [hmore]
        show (s.pending.projetos.filter (cursorFilter c st cl)).take limit ++
            paginateCursor s limit st cl fuel
              (some (((s.pending.projetos.filter (cursorFilter c st cl)).get
                ⟨limit - 1, hn1⟩).id)) =
            s.pending.projetos.filter (cursorFilter c st cl)
        rw [ih _ hlen', hadv, hdrop]
        exact List.take_append_drop _ _

/-- Claim C2 (amended): for every page size of AT LEAST 1, calling
get_with_cursor with no cursor and repeatedly passing the returned next_cursor
back until it is absent yields exactly the live rows matching the fixed filters
— each exactly once, in strictly ascending id order (page size 0 loses rows,
see the counterexample). -/
theorem cursor_pagination_complete (s : Sess) (st : Option ProjectStatus) (cl : Option Nat)
    (limit fuel : Nat) (hlim : 1 ≤ limit)
    (hsort : s.pending.projetos.Pairwise (fun a b => a.id < b.id))
    (hfuel : s.pending.projetos.length ≤ fuel) :
    paginateCursor s limit st cl fuel none =
      s.pending.projetos.filter (cursorFilter none st cl)
    ∧ (paginateCursor s limit st cl fuel none).Pairwise (fun a b => a.id < b.id)
    ∧ ∀ r : ProjRow, r ∈ paginateCursor s limit st cl fuel none ↔
        (r ∈ s.pending.projetos ∧ r.deletedAt = none ∧ statusOk st r = true ∧
          clientOk cl r = true) := by
  have hlen : (s.pending.projetos.filter (cursorFilter none st cl)).length ≤ fuel :=
    le_trans (List.length_filter_le _ _) hfuel
  have heq := paginate_go s st cl limit hlim hsort fuel none hlen
  refine ⟨heq, ?_, ?_⟩
  · rw [heq]
    exact List.Pairwise.sublist (List.filter_sublist _) hsort
  · intro r
    rw [heq, List.mem_filter]
    constructor
    · rintro ⟨hmem, hf⟩
      simp only [cursorFilter, cursorOk, Bool.and_eq_true, Option.isNone_iff_eq_none] at hf
      exact ⟨hmem, hf.1.1.1, hf.1.2, hf.2⟩
    · rintro ⟨hmem, h1, h2, h3⟩
      refine ⟨hmem, ?_⟩
      simp [cursorFilter, cursorOk, h1, h2, h3]

/-- Single live row used by the C2 counterexample. -/
def c2row : ProjRow := { id := 1 }

/-- One-row database used by the C2 counterexample. -/
def c2zeroDb : Db := { projetos := [c2row] }

/-- Claim C2 counterexample: with page size 0 over one live row, the first call
fetches limit+1 = 1 row, sees more than `limit` rows, trims the page to
nothing, and then reports no next cursor (the trimmed page is empty), so the
pagination loop terminates having yielded no rows at all — the live row is
lost, refuting the claim for that page size. -/
theorem cursor_pagination_zero_limit_counterexample :
    paginateCursor (Sess.fresh c2zeroDb 2) 0 none none 5 none = []
    ∧ c2row ∈ (Sess.fresh c2zeroDb 2).pending.projetos
    ∧ c2row.deletedAt = none := by decide

/-- Four-row database (one row soft-deleted) used by the C2 witness. -/
def c2db : Db :=
  { projetos := [{ id := 1 }, { id := 2, deletedAt := some 5 }, { id := 3 }, { id := 4 }] }

theorem cursor_pagination_complete_witness :
    ((1 : Nat) ≤ 1
      ∧ (Sess.fresh c2db 9).pending.projetos.Pairwise (fun a b => a.id < b.id)
      ∧ (Sess.fresh c2db 9).pending.projetos.length ≤ 4)
    ∧ paginateCursor (Sess.fresh c2db 9) 1 none none 4 none =
        [{ id := 1 }, { id := 3 }, { id := 4 }] := by
  refine ⟨⟨le_refl 1, by decide, by decide⟩, ?_⟩
  have h := (cursor_pagination_complete (Sess.fresh c2db 9) none none 1 4 (le_refl 1)
    (by decide) (by decide)).1
  rw [h]
  decide
